import Mathlib

/-!
Shallow embedding of the ElementalDuel and BlockDuel Solidity contracts
(commit-reveal wagering duels).  Addresses and bytes32 values are modelled
as natural numbers (0 is the zero address / zero hash); amounts and
timestamps are natural numbers; fallible external functions return Option
(none models a revert, leaving the pre-state unchanged); settlement value
transfers are modelled as explicit payout instruction lists; keccak256 is
an abstract hash parameter threaded through reveal functions.
-/

namespace ElementDuel

/-- A fixed-size array of three elements, modelling Solidity
fixed-size arrays of length 3. -/
structure Triple (α : Type) where
  t0 : α
  t1 : α
  t2 : α
deriving DecidableEq, Repr

namespace Triple

/-- Checked indexing of a length-3 array by a trusted index. -/
def get {α : Type} (t : Triple α) : Fin 3 → α
  | 0 => t.t0
  | 1 => t.t1
  | 2 => t.t2

/-- Indexing by an untrusted Nat index: none models the Solidity
out-of-bounds panic (revert). -/
def getAt {α : Type} (t : Triple α) : Nat → Option α
  | 0 => some t.t0
  | 1 => some t.t1
  | 2 => some t.t2
  | _ => none

/-- Checked update by an untrusted Nat index: none models the Solidity
out-of-bounds panic (revert). -/
def setAt {α : Type} (t : Triple α) : Nat → α → Option (Triple α)
  | 0, a => some ⟨a, t.t1, t.t2⟩
  | 1, a => some ⟨t.t0, a, t.t2⟩
  | 2, a => some ⟨t.t0, t.t1, a⟩
  | _ + 3, _ => none

end Triple

/-- A settlement instruction issued to the external ledger:
transfer `amount` to `recipient`. -/
structure Payout where
  recipient : Nat
  amount : Nat
deriving DecidableEq, Repr

namespace ElementalDuel

/-- The four elements of ElementalDuel.sol. -/
inductive Element where
  | Fire
  | Water
  | Earth
  | Air
deriving DecidableEq, Repr

/-- GameState enum of ElementalDuel.sol. -/
inductive GameState where
  | Created
  | MovesCommitted
  | MovesRevealed
  | Finished
deriving DecidableEq, Repr

/-- Move struct of ElementalDuel.sol. -/
structure Move where
  element : Element
  isRevealed : Bool
deriving DecidableEq, Repr

/-- Game struct of ElementalDuel.sol. -/
structure Game where
  player1 : Nat
  player2 : Nat
  stake : Nat
  totalPrize : Nat
  state : GameState
  player1Commitments : Triple Nat
  player2Commitments : Triple Nat
  player1Moves : Triple Move
  player2Moves : Triple Move
  lastActionTimestamp : Nat
  player1Wins : Nat
  player2Wins : Nat
  isInitialized : Bool
deriving DecidableEq, Repr

def PLATFORM_FEE_PERCENTAGE : Nat := 2

def ROUNDS_TO_WIN : Nat := 2

/-- One day (the Solidity literal 1 days), in seconds. -/
def REVEAL_TIMEOUT : Nat := 86400

/-- createGame: requires a positive stake; the fresh game record has all
storage slots at their Solidity defaults except the fields assigned. -/
def createGame (sender value : Nat) : Option Game :=
  if value = 0 then none
  else
    some
      { player1 := sender
        player2 := 0
        stake := value
        totalPrize := 0
        state := GameState.Created
        player1Commitments := ⟨0, 0, 0⟩
        player2Commitments := ⟨0, 0, 0⟩
        player1Moves := ⟨⟨Element.Fire, false⟩, ⟨Element.Fire, false⟩, ⟨Element.Fire, false⟩⟩
        player2Moves := ⟨⟨Element.Fire, false⟩, ⟨Element.Fire, false⟩, ⟨Element.Fire, false⟩⟩
        lastActionTimestamp := 0
        player1Wins := 0
        player2Wins := 0
        isInitialized := true }

/-- joinGame of ElementalDuel.sol.  Note: the function body assigns
player2, totalPrize and lastActionTimestamp but never writes game.state. -/
def joinGame (sender value now : Nat) (g : Game) : Option Game :=
  if g.isInitialized = false then none
  else if g.state ≠ GameState.Created then none
  else if sender = g.player1 then none
  else if value ≠ g.stake then none
  else some { g with player2 := sender, totalPrize := g.stake * 2, lastActionTimestamp := now }

/-- commitMoves of ElementalDuel.sol: guarded by state == Created and by
the first stored hash of the caller being the zero hash. -/
def commitMoves (sender now : Nat) (moveHashes : Triple Nat) (g : Game) : Option Game :=
  if g.state ≠ GameState.Created then none
  else if sender ≠ g.player1 ∧ sender ≠ g.player2 then none
  else if sender = g.player1 then
    if g.player1Commitments.t0 ≠ 0 then none
    else
      let g1 := { g with player1Commitments := moveHashes }
      if g1.player1Commitments.t0 ≠ 0 ∧ g1.player2Commitments.t0 ≠ 0 then
        some { g1 with state := GameState.MovesCommitted, lastActionTimestamp := now }
      else some g1
  else
    if g.player2Commitments.t0 ≠ 0 then none
    else
      let g1 := { g with player2Commitments := moveHashes }
      if g1.player1Commitments.t0 ≠ 0 ∧ g1.player2Commitments.t0 ≠ 0 then
        some { g1 with state := GameState.MovesCommitted, lastActionTimestamp := now }
      else some g1

/-- areAllMovesRevealed of ElementalDuel.sol. -/
def areAllMovesRevealed (g : Game) : Bool :=
  g.player1Moves.t0.isRevealed && g.player1Moves.t1.isRevealed &&
  g.player1Moves.t2.isRevealed && g.player2Moves.t0.isRevealed &&
  g.player2Moves.t1.isRevealed && g.player2Moves.t2.isRevealed

/-- determineRoundWinner of ElementalDuel.sol: address(0) encodes a tie. -/
def determineRoundWinner (player1 player2 : Nat) (element1 element2 : Element) : Nat :=
  if element1 = element2 then 0
  else if (element1 = Element.Fire ∧ element2 = Element.Air) ∨
      (element1 = Element.Water ∧ element2 = Element.Fire) ∨
      (element1 = Element.Earth ∧ element2 = Element.Water) ∨
      (element1 = Element.Air ∧ element2 = Element.Earth) then player1
  else player2

/-- endGame of ElementalDuel.sol: marks the game Finished, then issues the
winner payout (totalPrize minus fee) and the owner fee payout. -/
def endGame (owner : Nat) (g : Game) (winner : Nat) : Game × List Payout :=
  let g1 := { g with state := GameState.Finished }
  let fee := g1.totalPrize * PLATFORM_FEE_PERCENTAGE / 100
  let winnerPrize := g1.totalPrize - fee
  (g1, [⟨winner, winnerPrize⟩, ⟨owner, fee⟩])

/-- refundPlayers of ElementalDuel.sol: marks the game Finished and
returns the stake to each player, with no fee payout. -/
def refundPlayers (g : Game) : Game × List Payout :=
  let g1 := { g with state := GameState.Finished }
  (g1, [⟨g1.player1, g1.stake⟩, ⟨g1.player2, g1.stake⟩])

/-- One iteration of the resolveGame loop body (round-winner computation
and win-counter update) of ElementalDuel.sol. -/
def resolveStep (g : Game) (i : Fin 3) : Game :=
  let roundWinner := determineRoundWinner g.player1 g.player2
    (g.player1Moves.get i).element (g.player2Moves.get i).element
  if roundWinner = g.player1 then { g with player1Wins := g.player1Wins + 1 }
  else if roundWinner = g.player2 then { g with player2Wins := g.player2Wins + 1 }
  else g

/-- The resolveGame loop of ElementalDuel.sol, with its early return once a
player reaches ROUNDS_TO_WIN, and the post-loop tie/higher-score branch. -/
def resolveRounds (owner : Nat) (g : Game) : List (Fin 3) → Game × List Payout
  | [] =>
    if g.player1Wins = g.player2Wins then refundPlayers g
    else endGame owner g (if g.player2Wins < g.player1Wins then g.player1 else g.player2)
  | i :: rest =>
    let g1 := resolveStep g i
    if g1.player1Wins = ROUNDS_TO_WIN then endGame owner g1 g1.player1
    else if g1.player2Wins = ROUNDS_TO_WIN then endGame owner g1 g1.player2
    else resolveRounds owner g1 rest

/-- resolveGame of ElementalDuel.sol: scores the three rounds in order. -/
def resolveGame (owner : Nat) (g : Game) : Game × List Payout :=
  resolveRounds owner g [0, 1, 2]

/-- revealMoves of ElementalDuel.sol.  The loop requires, for each of the
three slots in order, that the slot is not yet revealed and that the
revealed element and salt hash to the stored commitment; any failure
reverts the whole call.  On success all three moves are stored and, if
both players have now revealed everything, the game is resolved. -/
def revealMoves (hash : Element → Nat → Nat) (owner sender : Nat)
    (elements : Triple Element) (salts : Triple Nat) (g : Game) :
    Option (Game × List Payout) :=
  if g.state ≠ GameState.MovesCommitted then none
  else if sender ≠ g.player1 ∧ sender ≠ g.player2 then none
  else
    let commitments := if sender = g.player1 then g.player1Commitments else g.player2Commitments
    let moves := if sender = g.player1 then g.player1Moves else g.player2Moves
    if moves.t0.isRevealed then none
    else if hash elements.t0 salts.t0 ≠ commitments.t0 then none
    else if moves.t1.isRevealed then none
    else if hash elements.t1 salts.t1 ≠ commitments.t1 then none
    else if moves.t2.isRevealed then none
    else if hash elements.t2 salts.t2 ≠ commitments.t2 then none
    else
      let newMoves : Triple Move :=
        ⟨⟨elements.t0, true⟩, ⟨elements.t1, true⟩, ⟨elements.t2, true⟩⟩
      let g1 := if sender = g.player1 then { g with player1Moves := newMoves }
                else { g with player2Moves := newMoves }
      if areAllMovesRevealed g1 then some (resolveGame owner g1) else some (g1, [])

/-- claimTimeout of ElementalDuel.sol. -/
def claimTimeout (owner now : Nat) (g : Game) : Option (Game × List Payout) :=
  if g.state ≠ GameState.MovesCommitted then none
  else if ¬ g.lastActionTimestamp + REVEAL_TIMEOUT < now then none
  else if g.player1Moves.t0.isRevealed = false ∧ g.player2Moves.t0.isRevealed = false then
    some (refundPlayers g)
  else if g.player1Moves.t0.isRevealed = false then some (endGame owner g g.player2)
  else some (endGame owner g g.player1)

/-- getGameState of ElementalDuel.sol: a pure read. -/
def getGameState (g : Game) : Nat × Nat × Nat × GameState × Nat × Nat :=
  (g.player1, g.player2, g.stake, g.state, g.player1Wins, g.player2Wins)

end ElementalDuel

namespace BlockDuel

/-- GameState enum of the BlockDuel contract. -/
inductive GameState where
  | Created
  | Started
  | CommitPhase
  | RevealPhase
  | Finished
deriving DecidableEq, Repr

/-- MoveType enum of the BlockDuel contract. -/
inductive MoveType where
  | Attack
  | Defend
  | Bluff
deriving DecidableEq, Repr

/-- BattleUnit struct of the BlockDuel contract. -/
structure BattleUnit where
  health : Nat
  attack : Nat
  defense : Nat
  energy : Nat
  isAlive : Bool
deriving DecidableEq, Repr

/-- Move struct of the BlockDuel contract. -/
structure Move where
  moveType : MoveType
  targetUnit : Nat
  sourceUnit : Nat
  energyCost : Nat
  isRevealed : Bool
deriving DecidableEq, Repr

/-- Game struct of the BlockDuel contract.  The moveCommitments and
revealedMoves mappings only ever use keys 0 (player1) and 1 (player2),
so they are modelled as two explicit slots each. -/
structure Game where
  player1 : Nat
  player2 : Nat
  stake : Nat
  totalPrize : Nat
  state : GameState
  currentRound : Nat
  commit0 : Nat
  commit1 : Nat
  reveal0 : Move
  reveal1 : Move
  lastActionTimestamp : Nat
  player1Units : Triple BattleUnit
  player2Units : Triple BattleUnit
  isInitialized : Bool
deriving DecidableEq, Repr

def GAME_FEE_PERCENTAGE : Nat := 2

def UNITS_PER_PLAYER : Nat := 3

/-- Five minutes (the Solidity literal 5 minutes), in seconds. -/
def BLOCK_REVEAL_TIMEOUT : Nat := 300

/-- The baseline unit every roster slot is initialized to. -/
def freshUnit : BattleUnit :=
  { health := 100, attack := 20, defense := 10, energy := 100, isAlive := true }

/-- The Solidity default value of the Move struct (as left by delete). -/
def emptyMove : Move :=
  { moveType := MoveType.Attack, targetUnit := 0, sourceUnit := 0,
    energyCost := 0, isRevealed := false }

/-- The Solidity default value of a BattleUnit storage slot. -/
def zeroUnit : BattleUnit :=
  { health := 0, attack := 0, defense := 0, energy := 0, isAlive := false }

/-- createGame of the BlockDuel contract. -/
def createGame (sender value : Nat) : Option Game :=
  if value = 0 then none
  else
    some
      { player1 := sender
        player2 := 0
        stake := value
        totalPrize := 0
        state := GameState.Created
        currentRound := 0
        commit0 := 0
        commit1 := 0
        reveal0 := emptyMove
        reveal1 := emptyMove
        lastActionTimestamp := 0
        player1Units := ⟨freshUnit, freshUnit, freshUnit⟩
        player2Units := ⟨zeroUnit, zeroUnit, zeroUnit⟩
        isInitialized := true }

/-- joinGame of the BlockDuel contract: unlike the elemental variant, it
assigns game.state = CommitPhase and initializes player2's roster. -/
def joinGame (sender value now : Nat) (g : Game) : Option Game :=
  if g.isInitialized = false then none
  else if g.state ≠ GameState.Created then none
  else if sender = g.player1 then none
  else if value ≠ g.stake then none
  else
    some { g with
      player2 := sender
      totalPrize := g.stake * 2
      state := GameState.CommitPhase
      player2Units := ⟨freshUnit, freshUnit, freshUnit⟩
      lastActionTimestamp := now }

/-- commitMove of the BlockDuel contract: one hash per player per round,
slot considered empty while it holds the zero hash. -/
def commitMove (sender now : Nat) (moveHash : Nat) (g : Game) : Option Game :=
  if g.state ≠ GameState.CommitPhase then none
  else if sender ≠ g.player1 ∧ sender ≠ g.player2 then none
  else
    let isP1 := sender = g.player1
    if (if isP1 then g.commit0 else g.commit1) ≠ 0 then none
    else
      let g1 := if isP1 then { g with commit0 := moveHash } else { g with commit1 := moveHash }
      if g1.commit0 ≠ 0 ∧ g1.commit1 ≠ 0 then
        some { g1 with state := GameState.RevealPhase, lastActionTimestamp := now }
      else some g1

/-- _processAttack of the BlockDuel contract: returns the defender after
the attack (the attacker is read-only). -/
def processAttack (attacker defender : BattleUnit) : BattleUnit :=
  if attacker.isAlive = false ∨ defender.isAlive = false then defender
  else if defender.health ≤ attacker.attack then
    { defender with health := 0, isAlive := false }
  else { defender with health := defender.health - attacker.attack }

/-- _processMoves of the BlockDuel contract.  Roster indexing uses the
revealed sourceUnit / targetUnit values without range validation; an index
outside the fixed-size roster is the out-of-bounds panic branch, modelled
by none (the surrounding transaction reverts). -/
def processMoves (g : Game) : Option Game := do
  let move1 := g.reveal0
  let move2 := g.reveal1
  let g1 ←
    if move1.moveType = MoveType.Attack then do
      let attacker ← g.player1Units.getAt move1.sourceUnit
      let defender ← g.player2Units.getAt move1.targetUnit
      let units ← g.player2Units.setAt move1.targetUnit (processAttack attacker defender)
      pure { g with player2Units := units }
    else pure g
  if move2.moveType = MoveType.Attack then do
    let attacker ← g1.player2Units.getAt move2.sourceUnit
    let defender ← g1.player1Units.getAt move2.targetUnit
    let units ← g1.player1Units.setAt move2.targetUnit (processAttack attacker defender)
    pure { g1 with player1Units := units }
  else pure g1

/-- _endGame of the BlockDuel contract. -/
def endGame (owner : Nat) (g : Game) (winner : Nat) : Game × List Payout :=
  let g1 := { g with state := GameState.Finished }
  let fee := g1.totalPrize * GAME_FEE_PERCENTAGE / 100
  let winnerPrize := g1.totalPrize - fee
  (g1, [⟨winner, winnerPrize⟩, ⟨owner, fee⟩])

/-- _refundPlayers of the BlockDuel contract. -/
def refundPlayers (g : Game) : Game × List Payout :=
  let g1 := { g with state := GameState.Finished }
  (g1, [⟨g1.player1, g1.stake⟩, ⟨g1.player2, g1.stake⟩])

/-- _resolveRound of the BlockDuel contract: processes both moves, scans
both rosters for a fully-eliminated side, then either settles the game or
clears the round state and loops back to CommitPhase. -/
def resolveRound (owner now : Nat) (g : Game) : Option (Game × List Payout) := do
  let g1 ← processMoves g
  let player1Lost := !(g1.player1Units.t0.isAlive || g1.player1Units.t1.isAlive ||
    g1.player1Units.t2.isAlive)
  let player2Lost := !(g1.player2Units.t0.isAlive || g1.player2Units.t1.isAlive ||
    g1.player2Units.t2.isAlive)
  if player1Lost || player2Lost then
    pure (endGame owner g1 (if player1Lost then g1.player2 else g1.player1))
  else
    pure
      ({ g1 with
          commit0 := 0
          commit1 := 0
          reveal0 := emptyMove
          reveal1 := emptyMove
          state := GameState.CommitPhase
          currentRound := g1.currentRound + 1
          lastActionTimestamp := now }, [])

/-- revealMove of the BlockDuel contract.  The keccak256 commitment hash
over (moveType, targetUnit, sourceUnit, energyCost, salt) is abstracted as
the hash parameter.  When this reveal completes the pair, the round is
resolved inside the same transaction, so a panic during resolution reverts
the reveal itself. -/
def revealMove (hash : MoveType → Nat → Nat → Nat → Nat → Nat) (owner sender now : Nat)
    (moveType : MoveType) (targetUnit sourceUnit energyCost salt : Nat) (g : Game) :
    Option (Game × List Payout) :=
  if g.state ≠ GameState.RevealPhase then none
  else if sender ≠ g.player1 ∧ sender ≠ g.player2 then none
  else
    let isP1 := sender = g.player1
    if (if isP1 then g.reveal0 else g.reveal1).isRevealed then none
    else if hash moveType targetUnit sourceUnit energyCost salt ≠
        (if isP1 then g.commit0 else g.commit1) then none
    else
      let m : Move :=
        { moveType := moveType, targetUnit := targetUnit, sourceUnit := sourceUnit,
          energyCost := energyCost, isRevealed := true }
      let g1 := if isP1 then { g with reveal0 := m } else { g with reveal1 := m }
      if g1.reveal0.isRevealed && g1.reveal1.isRevealed then resolveRound owner now g1
      else some (g1, [])

/-- claimTimeout of the BlockDuel contract. -/
def claimTimeout (owner now : Nat) (g : Game) : Option (Game × List Payout) :=
  if g.state ≠ GameState.RevealPhase then none
  else if ¬ g.lastActionTimestamp + BLOCK_REVEAL_TIMEOUT < now then none
  else if g.reveal0.isRevealed = false ∧ g.reveal1.isRevealed = false then
    some (refundPlayers g)
  else if g.reveal0.isRevealed = false then some (endGame owner g g.player2)
  else some (endGame owner g g.player1)

/-- A roster is fully eliminated when no unit is alive. -/
def allUnitsDead (t : Triple BattleUnit) : Prop :=
  t.t0.isAlive = false ∧ t.t1.isAlive = false ∧ t.t2.isAlive = false

instance (t : Triple BattleUnit) : Decidable (allUnitsDead t) := by
  unfold allUnitsDead; infer_instance

end BlockDuel

/-! ### Sample game states used by witnesses and counterexamples -/

/-- A concrete elemental game as created by player 1 with stake 5
(exactly the record produced by ElementalDuel.createGame 1 5). -/
def egCreated : ElementalDuel.Game :=
  { player1 := 1
    player2 := 0
    stake := 5
    totalPrize := 0
    state := ElementalDuel.GameState.Created
    player1Commitments := ⟨0, 0, 0⟩
    player2Commitments := ⟨0, 0, 0⟩
    player1Moves := ⟨⟨ElementalDuel.Element.Fire, false⟩, ⟨ElementalDuel.Element.Fire, false⟩,
      ⟨ElementalDuel.Element.Fire, false⟩⟩
    player2Moves := ⟨⟨ElementalDuel.Element.Fire, false⟩, ⟨ElementalDuel.Element.Fire, false⟩,
      ⟨ElementalDuel.Element.Fire, false⟩⟩
    lastActionTimestamp := 0
    player1Wins := 0
    player2Wins := 0
    isInitialized := true }

/-- The elemental game after player 2 joined with the matching stake. -/
def egJoined : ElementalDuel.Game :=
  { egCreated with player2 := 2, totalPrize := 10, lastActionTimestamp := 10 }

/-- The joined elemental game after player 1 committed an array whose
first entry is the zero hash. -/
def egAfterZeroCommit : ElementalDuel.Game :=
  { egJoined with player1Commitments := ⟨0, 7, 8⟩ }

/-- A joined elemental game where player 1 has a nonzero first commitment. -/
def egP1Committed : ElementalDuel.Game :=
  { egJoined with player1Commitments := ⟨5, 6, 7⟩ }

/-- A finished elemental game. -/
def egFinished : ElementalDuel.Game :=
  { egJoined with state := ElementalDuel.GameState.Finished }

/-- A concrete combat game as created by player 1 with stake 5. -/
def bgCreated : BlockDuel.Game :=
  { player1 := 1
    player2 := 0
    stake := 5
    totalPrize := 0
    state := BlockDuel.GameState.Created
    currentRound := 0
    commit0 := 0
    commit1 := 0
    reveal0 := BlockDuel.emptyMove
    reveal1 := BlockDuel.emptyMove
    lastActionTimestamp := 0
    player1Units := ⟨BlockDuel.freshUnit, BlockDuel.freshUnit, BlockDuel.freshUnit⟩
    player2Units := ⟨BlockDuel.zeroUnit, BlockDuel.zeroUnit, BlockDuel.zeroUnit⟩
    isInitialized := true }

/-- A combat game in CommitPhase where player 1 has committed hash 5. -/
def bgP1Committed : BlockDuel.Game :=
  { bgCreated with
      player2 := 2
      totalPrize := 10
      state := BlockDuel.GameState.CommitPhase
      player2Units := ⟨BlockDuel.freshUnit, BlockDuel.freshUnit, BlockDuel.freshUnit⟩
      commit0 := 5 }

/-! ### C6 — settlement fee arithmetic -/

/-- Helper: the 2 percent fee never exceeds the total prize. -/
lemma fee_le_totalPrize (tp : Nat) : tp * 2 / 100 ≤ tp := by
  calc tp * 2 / 100 ≤ tp * 100 / 100 := Nat.div_le_div_right (by omega)
  _ = tp := Nat.mul_div_cancel tp (by norm_num)

/-- C6: in both contracts a winner settlement issues
winnerPrize = totalPrize - fee to the winner and fee = totalPrize * 2 / 100
(integer division) to the owner, with winnerPrize + fee = totalPrize
exactly; totalPrize 100 yields (98, 2) and totalPrize 101 yields (99, 2). -/
theorem claim_C6_fee_arithmetic (owner winner : Nat) (ge : ElementalDuel.Game)
    (gb : BlockDuel.Game) :
    (ElementalDuel.endGame owner ge winner).2 =
      [⟨winner, ge.totalPrize - ge.totalPrize * ElementalDuel.PLATFORM_FEE_PERCENTAGE / 100⟩,
       ⟨owner, ge.totalPrize * ElementalDuel.PLATFORM_FEE_PERCENTAGE / 100⟩] ∧
    (ge.totalPrize - ge.totalPrize * ElementalDuel.PLATFORM_FEE_PERCENTAGE / 100) +
      ge.totalPrize * ElementalDuel.PLATFORM_FEE_PERCENTAGE / 100 = ge.totalPrize ∧
    (BlockDuel.endGame owner gb winner).2 =
      [⟨winner, gb.totalPrize - gb.totalPrize * BlockDuel.GAME_FEE_PERCENTAGE / 100⟩,
       ⟨owner, gb.totalPrize * BlockDuel.GAME_FEE_PERCENTAGE / 100⟩] ∧
    (gb.totalPrize - gb.totalPrize * BlockDuel.GAME_FEE_PERCENTAGE / 100) +
      gb.totalPrize * BlockDuel.GAME_FEE_PERCENTAGE / 100 = gb.totalPrize ∧
    (ElementalDuel.endGame owner { ge with totalPrize := 100 } winner).2 =
      [⟨winner, 98⟩, ⟨owner, 2⟩] ∧
    (ElementalDuel.endGame owner { ge with totalPrize := 101 } winner).2 =
      [⟨winner, 99⟩, ⟨owner, 2⟩] ∧
    ElementalDuel.PLATFORM_FEE_PERCENTAGE = 2 ∧ BlockDuel.GAME_FEE_PERCENTAGE = 2 := by
  refine ⟨rfl, ?_, rfl, ?_, ?_, ?_, rfl, rfl⟩
  · exact Nat.sub_add_cancel (by
      simpa [ElementalDuel.PLATFORM_FEE_PERCENTAGE] using fee_le_totalPrize ge.totalPrize)
  · exact Nat.sub_add_cancel (by
      simpa [BlockDuel.GAME_FEE_PERCENTAGE] using fee_le_totalPrize gb.totalPrize)
  · simp [ElementalDuel.endGame, ElementalDuel.PLATFORM_FEE_PERCENTAGE]
  · simp [ElementalDuel.endGame, ElementalDuel.PLATFORM_FEE_PERCENTAGE]

/-! ### C10 — the elemental round-winner relation -/

/-- Membership of an ordered element pair in the documented dominance
cycle Fire beats Air, Water beats Fire, Earth beats Water, Air beats
Earth. -/
def cyclePair (e1 e2 : ElementalDuel.Element) : Prop :=
  (e1 = ElementalDuel.Element.Fire ∧ e2 = ElementalDuel.Element.Air) ∨
  (e1 = ElementalDuel.Element.Water ∧ e2 = ElementalDuel.Element.Fire) ∨
  (e1 = ElementalDuel.Element.Earth ∧ e2 = ElementalDuel.Element.Water) ∨
  (e1 = ElementalDuel.Element.Air ∧ e2 = ElementalDuel.Element.Earth)

instance (e1 e2 : ElementalDuel.Element) : Decidable (cyclePair e1 e2) := by
  unfold cyclePair; infer_instance

/-- The decision property that actually holds of determineRoundWinner at
one element pair: totality (exactly one of player1 wins / player2 wins /
tie), tie exactly on equal elements, player1 wins exactly on the dominance
cycle, player2 wins on every other pair of distinct elements (including
the two pairs the cycle does not order, where player2 wins in either
argument order), and a player1 win reversed is a player2 win. -/
def roundWinnerSpec (p1 p2 : Nat) (e1 e2 : ElementalDuel.Element) : Prop :=
  (ElementalDuel.determineRoundWinner p1 p2 e1 e2 = p1 ∨
   ElementalDuel.determineRoundWinner p1 p2 e1 e2 = p2 ∨
   ElementalDuel.determineRoundWinner p1 p2 e1 e2 = 0) ∧
  ¬ (ElementalDuel.determineRoundWinner p1 p2 e1 e2 = p1 ∧
     ElementalDuel.determineRoundWinner p1 p2 e1 e2 = p2) ∧
  ¬ (ElementalDuel.determineRoundWinner p1 p2 e1 e2 = p1 ∧
     ElementalDuel.determineRoundWinner p1 p2 e1 e2 = 0) ∧
  ¬ (ElementalDuel.determineRoundWinner p1 p2 e1 e2 = p2 ∧
     ElementalDuel.determineRoundWinner p1 p2 e1 e2 = 0) ∧
  (ElementalDuel.determineRoundWinner p1 p2 e1 e2 = 0 ↔ e1 = e2) ∧
  (ElementalDuel.determineRoundWinner p1 p2 e1 e2 = p1 ↔ cyclePair e1 e2) ∧
  (ElementalDuel.determineRoundWinner p1 p2 e1 e2 = p2 ↔ (e1 ≠ e2 ∧ ¬ cyclePair e1 e2)) ∧
  (ElementalDuel.determineRoundWinner p1 p2 e1 e2 = p1 →
    ElementalDuel.determineRoundWinner p1 p2 e2 e1 = p2)

/-- C10 counterexample: on the pair Fire versus Earth, which the cycle
does not order in either direction, the code gives the win to player2 in
both argument orders; so the win set is not exactly the cycle and the
relation is not asymmetric on distinct elements. -/
theorem claim_C10_counterexample :
    ElementalDuel.determineRoundWinner 1 2
      ElementalDuel.Element.Fire ElementalDuel.Element.Earth = 2 ∧
    ElementalDuel.determineRoundWinner 1 2
      ElementalDuel.Element.Earth ElementalDuel.Element.Fire = 2 ∧
    ¬ cyclePair ElementalDuel.Element.Earth ElementalDuel.Element.Fire ∧
    ¬ cyclePair ElementalDuel.Element.Fire ElementalDuel.Element.Earth ∧
    ElementalDuel.Element.Fire ≠ ElementalDuel.Element.Earth := by decide

/-- C10 (amended): determineRoundWinner is total and decides every element
pair in exactly one of three ways; ties exactly on equal elements; player1
wins exactly on the cycle Fire beats Air, Water beats Fire, Earth beats
Water, Air beats Earth; player2 wins on every other distinct pair — in
particular on Fire/Earth and Water/Air, which the cycle does not order,
player2 wins in either argument order, so the relation is irreflexive but
not asymmetric on all distinct elements. -/
theorem claim_C10_cyclic_dominance (p1 p2 : Nat) (h1 : p1 ≠ 0) (h2 : p2 ≠ 0)
    (h12 : p1 ≠ p2) (e1 e2 : ElementalDuel.Element) :
    roundWinnerSpec p1 p2 e1 e2 := by
  have n1 : (0 : Nat) ≠ p1 := Ne.symm h1
  have n2 : (0 : Nat) ≠ p2 := Ne.symm h2
  have n12 : p2 ≠ p1 := Ne.symm h12
  rcases e1 <;> rcases e2 <;>
    simp_all [roundWinnerSpec, cyclePair, ElementalDuel.determineRoundWinner]

/-- Witness for C10 at a concrete input. -/
theorem claim_C10_witness :
    roundWinnerSpec 1 2 ElementalDuel.Element.Fire ElementalDuel.Element.Air :=
  claim_C10_cyclic_dominance 1 2 (by decide) (by decide) (by decide)
    ElementalDuel.Element.Fire ElementalDuel.Element.Air

/-! ### C1 — joinGame postcondition -/

/-- C1 counterexample: in the elemental contract a successful join by a
distinct caller with the matching stake leaves the game still in phase
Created (joinGame never writes game.state), contradicting the claim that
the game is no longer in phase Created after the join. -/
theorem claim_C1_counterexample :
    (ElementalDuel.joinGame 2 5 10 egCreated).isSome = true ∧
    Option.map ElementalDuel.Game.state (ElementalDuel.joinGame 2 5 10 egCreated) =
      some ElementalDuel.GameState.Created ∧
    Option.map ElementalDuel.Game.player2 (ElementalDuel.joinGame 2 5 10 egCreated) =
      some 2 ∧
    Option.map ElementalDuel.Game.totalPrize (ElementalDuel.joinGame 2 5 10 egCreated) =
      some 10 := by decide

/-- C1 (amended): a successful join by a caller distinct from player1
whose sent value equals the stake sets player2 to the caller and
totalPrize to twice the stake in both variants; in the combat variant the
phase becomes CommitPhase (no longer Created), while in the elemental
variant the phase remains Created, which is the phase in which commitMoves
accepts commitments. -/
theorem claim_C1_join_postcondition (sender value now : Nat)
    (gb : BlockDuel.Game) (ge : ElementalDuel.Game)
    (hb1 : gb.isInitialized = true) (hb2 : gb.state = BlockDuel.GameState.Created)
    (hb3 : sender ≠ gb.player1) (hb4 : value = gb.stake)
    (he1 : ge.isInitialized = true) (he2 : ge.state = ElementalDuel.GameState.Created)
    (he3 : sender ≠ ge.player1) (he4 : value = ge.stake) :
    (∃ g', BlockDuel.joinGame sender value now gb = some g' ∧
      g'.player2 = sender ∧ g'.totalPrize = 2 * gb.stake ∧
      g'.state = BlockDuel.GameState.CommitPhase ∧
      g'.state ≠ BlockDuel.GameState.Created) ∧
    (∃ g', ElementalDuel.joinGame sender value now ge = some g' ∧
      g'.player2 = sender ∧ g'.totalPrize = 2 * ge.stake ∧
      g'.state = ElementalDuel.GameState.Created) := by
  have hb : BlockDuel.joinGame sender value now gb =
      some { gb with
        player2 := sender
        totalPrize := gb.stake * 2
        state := BlockDuel.GameState.CommitPhase
        player2Units := ⟨BlockDuel.freshUnit, BlockDuel.freshUnit, BlockDuel.freshUnit⟩
        lastActionTimestamp := now } := by
    simp [BlockDuel.joinGame, hb1, hb2, hb3, hb4]
  have he : ElementalDuel.joinGame sender value now ge =
      some { ge with
        player2 := sender
        totalPrize := ge.stake * 2
        lastActionTimestamp := now } := by
    simp [ElementalDuel.joinGame, he1, he2, he3, he4]
  refine ⟨⟨_, hb, ?_, ?_, ?_, ?_⟩, ⟨_, he, ?_, ?_, ?_⟩⟩
  · rfl
  · dsimp only; omega
  · rfl
  · dsimp only; decide
  · rfl
  · dsimp only; omega
  · exact he2

/-- Witness for C1 at concrete games. -/
theorem claim_C1_witness :
    (∃ g', BlockDuel.joinGame 2 5 10 bgCreated = some g' ∧
      g'.player2 = 2 ∧ g'.totalPrize = 2 * bgCreated.stake ∧
      g'.state = BlockDuel.GameState.CommitPhase ∧
      g'.state ≠ BlockDuel.GameState.Created) ∧
    (∃ g', ElementalDuel.joinGame 2 5 10 egCreated = some g' ∧
      g'.player2 = 2 ∧ g'.totalPrize = 2 * egCreated.stake ∧
      g'.state = ElementalDuel.GameState.Created) :=
  claim_C1_join_postcondition 2 5 10 bgCreated egCreated rfl rfl (by decide) rfl
    rfl rfl (by decide) rfl

/-! ### C2 — write-once commitments -/

/-- C2 counterexample: a first commit whose entry 0 is the zero hash is
stored successfully, yet a second commit by the same player in the same
round is accepted and overwrites the stored array, because the emptiness
guard tests entry 0 against the zero hash. -/
theorem claim_C2_counterexample :
    ElementalDuel.commitMoves 1 11 ⟨0, 7, 8⟩ egJoined = some egAfterZeroCommit ∧
    egAfterZeroCommit.player1Commitments = ⟨0, 7, 8⟩ ∧
    Option.map ElementalDuel.Game.player1Commitments
      (ElementalDuel.commitMoves 1 12 ⟨9, 10, 11⟩ egAfterZeroCommit) =
      some ⟨9, 10, 11⟩ := by decide

/-- C2 (amended): once a player's commitment slot has been filled with a
first stored hash (entry 0 of the array in the elemental variant, the
single hash in the combat variant) that is nonzero, any second commit by
the same player in the same round is rejected and the stored value is
preserved; a first commit whose first entry is the zero hash leaves the
slot treated as empty and can be overwritten. -/
theorem claim_C2_write_once (sender now : Nat) (mh : Triple Nat) (mh1 : Nat)
    (ge : ElementalDuel.Game) (gb : BlockDuel.Game) :
    (sender = ge.player1 → ge.player1Commitments.t0 ≠ 0 →
      ElementalDuel.commitMoves sender now mh ge = none) ∧
    (sender ≠ ge.player1 → sender = ge.player2 → ge.player2Commitments.t0 ≠ 0 →
      ElementalDuel.commitMoves sender now mh ge = none) ∧
    (sender = gb.player1 → gb.commit0 ≠ 0 →
      BlockDuel.commitMove sender now mh1 gb = none) ∧
    (sender ≠ gb.player1 → sender = gb.player2 → gb.commit1 ≠ 0 →
      BlockDuel.commitMove sender now mh1 gb = none) := by
  refine ⟨?_, ?_, ?_, ?_⟩
  · intro hs hc
    unfold ElementalDuel.commitMoves
    split_ifs <;> simp_all
  · intro hs hs2 hc
    unfold ElementalDuel.commitMoves
    split_ifs <;> simp_all
  · intro hs hc
    unfold BlockDuel.commitMove
    split_ifs <;> simp_all
  · intro hs hs2 hc
    unfold BlockDuel.commitMove
    split_ifs <;> simp_all

/-- Witness for C2 at concrete games with nonzero first hashes. -/
theorem claim_C2_witness :
    ElementalDuel.commitMoves 1 20 ⟨9, 9, 9⟩ egP1Committed = none ∧
    BlockDuel.commitMove 1 20 9 bgP1Committed = none :=
  ⟨(claim_C2_write_once 1 20 ⟨9, 9, 9⟩ 9 egP1Committed bgP1Committed).1
      rfl (by decide),
   (claim_C2_write_once 1 20 ⟨9, 9, 9⟩ 9 egP1Committed bgP1Committed).2.2.1
      rfl (by decide)⟩

/-! ### C3 — simultaneous elimination tie-break -/

/-- A dead combat unit. -/
def deadUnit : BlockDuel.BattleUnit :=
  { health := 0, attack := 20, defense := 10, energy := 100, isAlive := false }

/-- A revealed Defend move targeting unit 0. -/
def revealedDefend : BlockDuel.Move :=
  { moveType := BlockDuel.MoveType.Defend
    targetUnit := 0
    sourceUnit := 0
    energyCost := 0
    isRevealed := true }

/-- A revealed Attack move from the out-of-range source unit 3. -/
def revealedOOBAttack : BlockDuel.Move :=
  { moveType := BlockDuel.MoveType.Attack
    targetUnit := 0
    sourceUnit := 3
    energyCost := 0
    isRevealed := true }

/-- A combat game in the reveal phase with both moves revealed as Defend
and every unit of both rosters already not-alive, so that after the
round's moves are processed both rosters are fully eliminated. -/
def bgBothDead : BlockDuel.Game :=
  { player1 := 1
    player2 := 2
    stake := 50
    totalPrize := 100
    state := BlockDuel.GameState.RevealPhase
    currentRound := 0
    commit0 := 5
    commit1 := 6
    reveal0 := revealedDefend
    reveal1 := revealedDefend
    lastActionTimestamp := 0
    player1Units := ⟨deadUnit, deadUnit, deadUnit⟩
    player2Units := ⟨deadUnit, deadUnit, deadUnit⟩
    isInitialized := true }

/-- C3 counterexample: at a concrete round whose processing leaves every
unit of both sides not-alive, the resolver pays the winner settlement to
player2 (address 2), not player1 (address 1): player1Lost is tested first
in the ternary, so the simultaneous case falls to player2. -/
theorem claim_C3_counterexample :
    BlockDuel.allUnitsDead bgBothDead.player1Units ∧
    BlockDuel.allUnitsDead bgBothDead.player2Units ∧
    BlockDuel.processMoves bgBothDead = some bgBothDead ∧
    BlockDuel.resolveRound 9 77 bgBothDead =
      some ({ bgBothDead with state := BlockDuel.GameState.Finished },
        [⟨2, 98⟩, ⟨9, 2⟩]) ∧
    bgBothDead.player2 = 2 ∧ bgBothDead.player1 = 1 := by decide

/-- C3 (amended): when after processing a round's moves both players'
rosters are fully eliminated simultaneously, the resolver declares
player2 the winner of the game (the ternary tests player1Lost first, so
the simultaneous case implicitly favors player2). -/
theorem claim_C3_simultaneous_elimination (owner now : Nat)
    (g g1 : BlockDuel.Game)
    (hp : BlockDuel.processMoves g = some g1)
    (h1 : BlockDuel.allUnitsDead g1.player1Units)
    (_h2 : BlockDuel.allUnitsDead g1.player2Units) :
    BlockDuel.resolveRound owner now g =
      some (BlockDuel.endGame owner g1 g1.player2) := by
  obtain ⟨a1, b1, c1⟩ := h1
  unfold BlockDuel.resolveRound
  rw [hp]
  simp [Option.bind, a1, b1, c1]

/-- Witness for C3 at the concrete both-eliminated game. -/
theorem claim_C3_witness :
    BlockDuel.resolveRound 9 77 bgBothDead =
      some (BlockDuel.endGame 9 bgBothDead bgBothDead.player2) :=
  claim_C3_simultaneous_elimination 9 77 bgBothDead bgBothDead
    (by decide) (by decide) (by decide)

/-! ### C7 — out-of-bounds roster index reachable from revealMove -/

/-- A combat game in the reveal phase where player1 has already revealed
a Defend move and player2's stored commitment is the hash of an Attack
move whose sourceUnit is 3, one past the last roster slot. -/
def bgOOB (hash : BlockDuel.MoveType → Nat → Nat → Nat → Nat → Nat) : BlockDuel.Game :=
  { player1 := 1
    player2 := 2
    stake := 50
    totalPrize := 100
    state := BlockDuel.GameState.RevealPhase
    currentRound := 0
    commit0 := 11
    commit1 := hash BlockDuel.MoveType.Attack 0 3 0 77
    reveal0 := revealedDefend
    reveal1 := BlockDuel.emptyMove
    lastActionTimestamp := 0
    player1Units := ⟨BlockDuel.freshUnit, BlockDuel.freshUnit, BlockDuel.freshUnit⟩
    player2Units := ⟨BlockDuel.freshUnit, BlockDuel.freshUnit, BlockDuel.freshUnit⟩
    isInitialized := true }

/-- C7: revealMove validates neither sourceUnit nor targetUnit, so a
committed-and-matching Attack move with sourceUnit = 3 passes every
guard of revealMove (phase, participant, not-yet-revealed, commitment
hash), yet the reveal that completes the pair reaches the out-of-bounds
branch of the roster indexing inside the move processor, and the whole
otherwise-valid reveal is rejected. -/
theorem claim_C7_oob_reachable
    (hash : BlockDuel.MoveType → Nat → Nat → Nat → Nat → Nat) :
    (bgOOB hash).state = BlockDuel.GameState.RevealPhase ∧
    (2 : Nat) = (bgOOB hash).player2 ∧
    (bgOOB hash).reveal1.isRevealed = false ∧
    hash BlockDuel.MoveType.Attack 0 3 0 77 = (bgOOB hash).commit1 ∧
    (3 : Nat) ≥ BlockDuel.UNITS_PER_PLAYER ∧
    (bgOOB hash).player2Units.getAt 3 = none ∧
    BlockDuel.processMoves { bgOOB hash with reveal1 := revealedOOBAttack } = none ∧
    BlockDuel.revealMove hash 9 2 100 BlockDuel.MoveType.Attack 0 3 0 77 (bgOOB hash) =
      none := by
  refine ⟨rfl, rfl, rfl, rfl, by decide, rfl, rfl, ?_⟩
  simp [BlockDuel.revealMove, BlockDuel.resolveRound, BlockDuel.processMoves,
    BlockDuel.emptyMove, bgOOB, Triple.getAt, revealedDefend]

/-! ### C4 — timeout policy -/

/-- The timeout policy asserted of the elemental claimTimeout at caller
inputs (owner, now) and game g.  claimTimeout takes no caller argument:
it is callable by anyone. -/
def timeoutSpec (owner now : Nat) (g : ElementalDuel.Game) : Prop :=
  (g.state = ElementalDuel.GameState.MovesCommitted →
    g.lastActionTimestamp + ElementalDuel.REVEAL_TIMEOUT < now →
    ((g.player1Moves.t0.isRevealed = false → g.player2Moves.t0.isRevealed = false →
      ElementalDuel.claimTimeout owner now g =
        some ({ g with state := ElementalDuel.GameState.Finished },
          [⟨g.player1, g.stake⟩, ⟨g.player2, g.stake⟩])) ∧
     (g.player1Moves.t0.isRevealed = true → g.player2Moves.t0.isRevealed = false →
      ElementalDuel.claimTimeout owner now g =
        some ({ g with state := ElementalDuel.GameState.Finished },
          [⟨g.player1,
             g.totalPrize - g.totalPrize * ElementalDuel.PLATFORM_FEE_PERCENTAGE / 100⟩,
           ⟨owner, g.totalPrize * ElementalDuel.PLATFORM_FEE_PERCENTAGE / 100⟩])) ∧
     (g.player1Moves.t0.isRevealed = false → g.player2Moves.t0.isRevealed = true →
      ElementalDuel.claimTimeout owner now g =
        some ({ g with state := ElementalDuel.GameState.Finished },
          [⟨g.player2,
             g.totalPrize - g.totalPrize * ElementalDuel.PLATFORM_FEE_PERCENTAGE / 100⟩,
           ⟨owner, g.totalPrize * ElementalDuel.PLATFORM_FEE_PERCENTAGE / 100⟩])))) ∧
  (¬ g.lastActionTimestamp + ElementalDuel.REVEAL_TIMEOUT < now →
    ElementalDuel.claimTimeout owner now g = none) ∧
  (g.state ≠ ElementalDuel.GameState.MovesCommitted →
    ElementalDuel.claimTimeout owner now g = none)

/-- The timeout policy asserted of the combat claimTimeout at caller
inputs (owner, now) and game g.  The reveal-waiting phase of the combat
variant is RevealPhase; one reveal slot per player per round. -/
def blockTimeoutSpec (owner now : Nat) (g : BlockDuel.Game) : Prop :=
  (g.state = BlockDuel.GameState.RevealPhase →
    g.lastActionTimestamp + BlockDuel.BLOCK_REVEAL_TIMEOUT < now →
    ((g.reveal0.isRevealed = false → g.reveal1.isRevealed = false →
      BlockDuel.claimTimeout owner now g =
        some ({ g with state := BlockDuel.GameState.Finished },
          [⟨g.player1, g.stake⟩, ⟨g.player2, g.stake⟩])) ∧
     (g.reveal0.isRevealed = true → g.reveal1.isRevealed = false →
      BlockDuel.claimTimeout owner now g =
        some ({ g with state := BlockDuel.GameState.Finished },
          [⟨g.player1,
             g.totalPrize - g.totalPrize * BlockDuel.GAME_FEE_PERCENTAGE / 100⟩,
           ⟨owner, g.totalPrize * BlockDuel.GAME_FEE_PERCENTAGE / 100⟩])) ∧
     (g.reveal0.isRevealed = false → g.reveal1.isRevealed = true →
      BlockDuel.claimTimeout owner now g =
        some ({ g with state := BlockDuel.GameState.Finished },
          [⟨g.player2,
             g.totalPrize - g.totalPrize * BlockDuel.GAME_FEE_PERCENTAGE / 100⟩,
           ⟨owner, g.totalPrize * BlockDuel.GAME_FEE_PERCENTAGE / 100⟩])))) ∧
  (¬ g.lastActionTimestamp + BlockDuel.BLOCK_REVEAL_TIMEOUT < now →
    BlockDuel.claimTimeout owner now g = none) ∧
  (g.state ≠ BlockDuel.GameState.RevealPhase →
    BlockDuel.claimTimeout owner now g = none)

/-- C4: past the reveal timeout in the reveal-waiting phase, claimTimeout
refunds both stakes with no fee when neither player revealed, pays the
sole revealer the full winner settlement (totalPrize minus fee) when
exactly one revealed, and rejects a claim made before the window elapses
or in any other phase (in particular once the game is Finished) — in
both the elemental and the combat variant. -/
theorem claim_C4_timeout_policy (owner now : Nat) (g : ElementalDuel.Game)
    (gb : BlockDuel.Game) :
    timeoutSpec owner now g ∧ blockTimeoutSpec owner now gb := by
  constructor
  · refine ⟨fun hs ht => ⟨fun r1 r2 => ?_, fun r1 r2 => ?_, fun r1 r2 => ?_⟩,
      fun ht => ?_, fun hs => ?_⟩ <;>
      simp_all [timeoutSpec, ElementalDuel.claimTimeout, ElementalDuel.refundPlayers,
        ElementalDuel.endGame]
  · refine ⟨fun hs ht => ⟨fun r1 r2 => ?_, fun r1 r2 => ?_, fun r1 r2 => ?_⟩,
      fun ht => ?_, fun hs => ?_⟩ <;>
      simp_all [blockTimeoutSpec, BlockDuel.claimTimeout, BlockDuel.refundPlayers,
        BlockDuel.endGame]

/-- A game waiting on reveals (MovesCommitted) with neither player
revealed and lastActionTimestamp 100. -/
def egAwaitingReveals : ElementalDuel.Game :=
  { egJoined with
      state := ElementalDuel.GameState.MovesCommitted
      player1Commitments := ⟨5, 6, 7⟩
      player2Commitments := ⟨8, 9, 10⟩
      lastActionTimestamp := 100 }

/-- The same game after player 1 alone revealed [Fire, Water, Earth]. -/
def egP1Revealed : ElementalDuel.Game :=
  { egAwaitingReveals with
      player1Moves := ⟨⟨ElementalDuel.Element.Fire, true⟩,
        ⟨ElementalDuel.Element.Water, true⟩, ⟨ElementalDuel.Element.Earth, true⟩⟩ }

/-- A combat game in RevealPhase with neither move revealed and
lastActionTimestamp 100. -/
def bgAwaitingReveals : BlockDuel.Game :=
  { bgP1Committed with
      state := BlockDuel.GameState.RevealPhase
      commit1 := 6
      lastActionTimestamp := 100 }

/-- The same combat game after player 1 alone revealed a Defend move. -/
def bgP1RevealedT : BlockDuel.Game :=
  { bgAwaitingReveals with reveal0 := revealedDefend }

/-- Witness for C4: for each variant, the refund branch, the
lone-revealer branch, the too-early rejection and the wrong-phase
rejection, at concrete games (stake 5, totalPrize 10; deadlines
100 + 86400 and 100 + 300). -/
theorem claim_C4_witness :
    ElementalDuel.claimTimeout 9 86501 egAwaitingReveals =
      some ({ egAwaitingReveals with state := ElementalDuel.GameState.Finished },
        [⟨1, 5⟩, ⟨2, 5⟩]) ∧
    ElementalDuel.claimTimeout 9 86501 egP1Revealed =
      some ({ egP1Revealed with state := ElementalDuel.GameState.Finished },
        [⟨1, 10⟩, ⟨9, 0⟩]) ∧
    ElementalDuel.claimTimeout 9 86500 egAwaitingReveals = none ∧
    ElementalDuel.claimTimeout 9 86501 egFinished = none ∧
    BlockDuel.claimTimeout 9 401 bgAwaitingReveals =
      some ({ bgAwaitingReveals with state := BlockDuel.GameState.Finished },
        [⟨1, 5⟩, ⟨2, 5⟩]) ∧
    BlockDuel.claimTimeout 9 401 bgP1RevealedT =
      some ({ bgP1RevealedT with state := BlockDuel.GameState.Finished },
        [⟨1, 10⟩, ⟨9, 0⟩]) ∧
    BlockDuel.claimTimeout 9 400 bgAwaitingReveals = none ∧
    BlockDuel.claimTimeout 9 401 bgP1Committed = none := by
  refine ⟨?_, ?_, ?_, ?_, ?_, ?_, ?_, ?_⟩
  · exact ((claim_C4_timeout_policy 9 86501 egAwaitingReveals bgAwaitingReveals).1.1
      rfl (by decide)).1 rfl rfl
  · exact (((claim_C4_timeout_policy 9 86501 egP1Revealed bgAwaitingReveals).1.1
      rfl (by decide)).2.1 rfl rfl).trans (by decide)
  · exact (claim_C4_timeout_policy 9 86500 egAwaitingReveals bgAwaitingReveals).1.2.1
      (by decide)
  · exact (claim_C4_timeout_policy 9 86501 egFinished bgAwaitingReveals).1.2.2 (by decide)
  · exact ((claim_C4_timeout_policy 9 401 egAwaitingReveals bgAwaitingReveals).2.1
      rfl (by decide)).1 rfl rfl
  · exact (((claim_C4_timeout_policy 9 401 egAwaitingReveals bgP1RevealedT).2.1
      rfl (by decide)).2.1 rfl rfl).trans (by decide)
  · exact (claim_C4_timeout_policy 9 400 egAwaitingReveals bgAwaitingReveals).2.2.1
      (by decide)
  · exact (claim_C4_timeout_policy 9 401 egAwaitingReveals bgP1Committed).2.2.2 (by decide)

/-! ### C5 — elemental resolution: sequential scoring, early exit, tie refund -/

@[simp] lemma tripleGet0 {α : Type} (x y z : α) : (Triple.mk x y z).get 0 = x := rfl

@[simp] lemma tripleGet1 {α : Type} (x y z : α) : (Triple.mk x y z).get 1 = y := rfl

@[simp] lemma tripleGet2 {α : Type} (x y z : α) : (Triple.mk x y z).get 2 = z := rfl

/-- A game at the moment resolveGame fires: both players' three moves
revealed, win counters still zero (their value whenever the second
revealMoves call triggers resolution). -/
def mkRevealed (p1 p2 stake : Nat)
    (a0 a1 a2 b0 b1 b2 : ElementalDuel.Element) : ElementalDuel.Game :=
  { player1 := p1
    player2 := p2
    stake := stake
    totalPrize := stake * 2
    state := ElementalDuel.GameState.MovesCommitted
    player1Commitments := ⟨1, 1, 1⟩
    player2Commitments := ⟨1, 1, 1⟩
    player1Moves := ⟨⟨a0, true⟩, ⟨a1, true⟩, ⟨a2, true⟩⟩
    player2Moves := ⟨⟨b0, true⟩, ⟨b1, true⟩, ⟨b2, true⟩⟩
    lastActionTimestamp := 0
    player1Wins := 0
    player2Wins := 0
    isInitialized := true }

/-- The round winner of round i of a game, exactly the expression the
resolveGame loop evaluates. -/
def roundWinnerAt (g : ElementalDuel.Game) (i : Fin 3) : Nat :=
  ElementalDuel.determineRoundWinner g.player1 g.player2
    (g.player1Moves.get i).element (g.player2Moves.get i).element

/-- The number of rounds (out of all three) whose winner is p. -/
def scoreOf (g : ElementalDuel.Game) (p : Nat) : Nat :=
  (if roundWinnerAt g 0 = p then 1 else 0) + (if roundWinnerAt g 1 = p then 1 else 0) +
  (if roundWinnerAt g 2 = p then 1 else 0)

/-- determineRoundWinner returns the tie marker or one of the two
players. -/
lemma drw_trichotomy (p1 p2 : Nat) (e1 e2 : ElementalDuel.Element) :
    ElementalDuel.determineRoundWinner p1 p2 e1 e2 = 0 ∨
    ElementalDuel.determineRoundWinner p1 p2 e1 e2 = p1 ∨
    ElementalDuel.determineRoundWinner p1 p2 e1 e2 = p2 := by
  unfold ElementalDuel.determineRoundWinner
  split_ifs <;> simp

/-- The resolution behavior of the elemental resolver on a fully revealed
game: equal scores over the three rounds refund both stakes with no fee;
otherwise the higher-scoring player receives the winner settlement; and a
player winning rounds 0 and 1 ends the game at that point — the win
counters stop at 2:0 and the outcome is the same whatever the third
moves are (round 3 is never scored). -/
def elementalResolutionSpec (p1 p2 owner stake : Nat)
    (a0 a1 a2 b0 b1 b2 : ElementalDuel.Element) : Prop :=
  (scoreOf (mkRevealed p1 p2 stake a0 a1 a2 b0 b1 b2) p1 =
      scoreOf (mkRevealed p1 p2 stake a0 a1 a2 b0 b1 b2) p2 →
    (ElementalDuel.resolveGame owner (mkRevealed p1 p2 stake a0 a1 a2 b0 b1 b2)).1.state =
      ElementalDuel.GameState.Finished ∧
    (ElementalDuel.resolveGame owner (mkRevealed p1 p2 stake a0 a1 a2 b0 b1 b2)).2 =
      [⟨p1, stake⟩, ⟨p2, stake⟩]) ∧
  (scoreOf (mkRevealed p1 p2 stake a0 a1 a2 b0 b1 b2) p2 <
      scoreOf (mkRevealed p1 p2 stake a0 a1 a2 b0 b1 b2) p1 →
    (ElementalDuel.resolveGame owner (mkRevealed p1 p2 stake a0 a1 a2 b0 b1 b2)).1.state =
      ElementalDuel.GameState.Finished ∧
    (ElementalDuel.resolveGame owner (mkRevealed p1 p2 stake a0 a1 a2 b0 b1 b2)).2 =
      [⟨p1, stake * 2 - stake * 2 * 2 / 100⟩, ⟨owner, stake * 2 * 2 / 100⟩]) ∧
  (scoreOf (mkRevealed p1 p2 stake a0 a1 a2 b0 b1 b2) p1 <
      scoreOf (mkRevealed p1 p2 stake a0 a1 a2 b0 b1 b2) p2 →
    (ElementalDuel.resolveGame owner (mkRevealed p1 p2 stake a0 a1 a2 b0 b1 b2)).1.state =
      ElementalDuel.GameState.Finished ∧
    (ElementalDuel.resolveGame owner (mkRevealed p1 p2 stake a0 a1 a2 b0 b1 b2)).2 =
      [⟨p2, stake * 2 - stake * 2 * 2 / 100⟩, ⟨owner, stake * 2 * 2 / 100⟩]) ∧
  (roundWinnerAt (mkRevealed p1 p2 stake a0 a1 a2 b0 b1 b2) 0 = p1 →
    roundWinnerAt (mkRevealed p1 p2 stake a0 a1 a2 b0 b1 b2) 1 = p1 →
    ∀ c2 d2 : ElementalDuel.Element,
      (ElementalDuel.resolveGame owner (mkRevealed p1 p2 stake a0 a1 c2 b0 b1 d2)).2 =
        [⟨p1, stake * 2 - stake * 2 * 2 / 100⟩, ⟨owner, stake * 2 * 2 / 100⟩] ∧
      (ElementalDuel.resolveGame owner
        (mkRevealed p1 p2 stake a0 a1 c2 b0 b1 d2)).1.player1Wins = 2 ∧
      (ElementalDuel.resolveGame owner
        (mkRevealed p1 p2 stake a0 a1 c2 b0 b1 d2)).1.player2Wins = 0) ∧
  (roundWinnerAt (mkRevealed p1 p2 stake a0 a1 a2 b0 b1 b2) 0 = p2 →
    roundWinnerAt (mkRevealed p1 p2 stake a0 a1 a2 b0 b1 b2) 1 = p2 →
    ∀ c2 d2 : ElementalDuel.Element,
      (ElementalDuel.resolveGame owner (mkRevealed p1 p2 stake a0 a1 c2 b0 b1 d2)).2 =
        [⟨p2, stake * 2 - stake * 2 * 2 / 100⟩, ⟨owner, stake * 2 * 2 / 100⟩] ∧
      (ElementalDuel.resolveGame owner
        (mkRevealed p1 p2 stake a0 a1 c2 b0 b1 d2)).1.player1Wins = 0 ∧
      (ElementalDuel.resolveGame owner
        (mkRevealed p1 p2 stake a0 a1 c2 b0 b1 d2)).1.player2Wins = 2)

/-- C5: the elemental resolver scores rounds sequentially with immediate
termination at 2 round wins (the remaining round is never scored and
cannot affect the outcome), refunds both stakes on equal final scores, and
otherwise settles for the higher-scoring player; in particular player1
committing [Fire, Water, Earth] against player2's [Air, Fire, Water] wins
rounds 1 and 2 and is settled as winner with the third round never
evaluated. -/
theorem claim_C5_elemental_resolution (p1 p2 owner stake : Nat)
    (h1 : p1 ≠ 0) (h2 : p2 ≠ 0) (h12 : p1 ≠ p2)
    (a0 a1 a2 b0 b1 b2 : ElementalDuel.Element) :
    elementalResolutionSpec p1 p2 owner stake a0 a1 a2 b0 b1 b2 ∧
    (∀ c2 d2 : ElementalDuel.Element,
      (ElementalDuel.resolveGame owner (mkRevealed p1 p2 stake
          ElementalDuel.Element.Fire ElementalDuel.Element.Water c2
          ElementalDuel.Element.Air ElementalDuel.Element.Fire d2)).2 =
        [⟨p1, stake * 2 - stake * 2 * 2 / 100⟩, ⟨owner, stake * 2 * 2 / 100⟩] ∧
      (ElementalDuel.resolveGame owner (mkRevealed p1 p2 stake
          ElementalDuel.Element.Fire ElementalDuel.Element.Water c2
          ElementalDuel.Element.Air ElementalDuel.Element.Fire d2)).1.player1Wins = 2 ∧
      (ElementalDuel.resolveGame owner (mkRevealed p1 p2 stake
          ElementalDuel.Element.Fire ElementalDuel.Element.Water c2
          ElementalDuel.Element.Air ElementalDuel.Element.Fire d2)).1.player2Wins = 0) := by
  have n1 : ¬ (0 : Nat) = p1 := fun h => h1 h.symm
  have n2 : ¬ (0 : Nat) = p2 := fun h => h2 h.symm
  have n12 : ¬ p2 = p1 := fun h => h12 h.symm
  have n21 : ¬ p1 = p2 := h12
  refine ⟨⟨?_, ?_, ?_, ?_, ?_⟩, ?_⟩
  · intro hsc
    rcases drw_trichotomy p1 p2 a0 b0 with hw0 | hw0 | hw0 <;>
      rcases drw_trichotomy p1 p2 a1 b1 with hw1 | hw1 | hw1 <;>
      rcases drw_trichotomy p1 p2 a2 b2 with hw2 | hw2 | hw2 <;>
      simp_all [ElementalDuel.resolveGame, ElementalDuel.resolveRounds,
        ElementalDuel.resolveStep, ElementalDuel.endGame, ElementalDuel.refundPlayers,
        ElementalDuel.ROUNDS_TO_WIN, ElementalDuel.PLATFORM_FEE_PERCENTAGE,
        mkRevealed, scoreOf, roundWinnerAt]
  · intro hsc
    rcases drw_trichotomy p1 p2 a0 b0 with hw0 | hw0 | hw0 <;>
      rcases drw_trichotomy p1 p2 a1 b1 with hw1 | hw1 | hw1 <;>
      rcases drw_trichotomy p1 p2 a2 b2 with hw2 | hw2 | hw2 <;>
      simp_all [ElementalDuel.resolveGame, ElementalDuel.resolveRounds,
        ElementalDuel.resolveStep, ElementalDuel.endGame, ElementalDuel.refundPlayers,
        ElementalDuel.ROUNDS_TO_WIN, ElementalDuel.PLATFORM_FEE_PERCENTAGE,
        mkRevealed, scoreOf, roundWinnerAt]
  · intro hsc
    rcases drw_trichotomy p1 p2 a0 b0 with hw0 | hw0 | hw0 <;>
      rcases drw_trichotomy p1 p2 a1 b1 with hw1 | hw1 | hw1 <;>
      rcases drw_trichotomy p1 p2 a2 b2 with hw2 | hw2 | hw2 <;>
      simp_all [ElementalDuel.resolveGame, ElementalDuel.resolveRounds,
        ElementalDuel.resolveStep, ElementalDuel.endGame, ElementalDuel.refundPlayers,
        ElementalDuel.ROUNDS_TO_WIN, ElementalDuel.PLATFORM_FEE_PERCENTAGE,
        mkRevealed, scoreOf, roundWinnerAt]
  · intro hr0 hr1 c2 d2
    simp_all [ElementalDuel.resolveGame, ElementalDuel.resolveRounds,
      ElementalDuel.resolveStep, ElementalDuel.endGame,
      ElementalDuel.ROUNDS_TO_WIN, ElementalDuel.PLATFORM_FEE_PERCENTAGE,
      mkRevealed, roundWinnerAt]
  · intro hr0 hr1 c2 d2
    simp_all [ElementalDuel.resolveGame, ElementalDuel.resolveRounds,
      ElementalDuel.resolveStep, ElementalDuel.endGame,
      ElementalDuel.ROUNDS_TO_WIN, ElementalDuel.PLATFORM_FEE_PERCENTAGE,
      mkRevealed, roundWinnerAt]
  · intro c2 d2
    have hr0 : ElementalDuel.determineRoundWinner p1 p2
        ElementalDuel.Element.Fire ElementalDuel.Element.Air = p1 := by
      simp [ElementalDuel.determineRoundWinner]
    have hr1 : ElementalDuel.determineRoundWinner p1 p2
        ElementalDuel.Element.Water ElementalDuel.Element.Fire = p1 := by
      simp [ElementalDuel.determineRoundWinner]
    simp_all [ElementalDuel.resolveGame, ElementalDuel.resolveRounds,
      ElementalDuel.resolveStep, ElementalDuel.endGame,
      ElementalDuel.ROUNDS_TO_WIN, ElementalDuel.PLATFORM_FEE_PERCENTAGE,
      mkRevealed, roundWinnerAt]

/-- Witness for C5 at concrete players 1 and 2, owner 9, stake 50 and the
scenario moves: player1 is settled 98 with fee 2 after two rounds. -/
theorem claim_C5_witness :
    elementalResolutionSpec 1 2 9 50 ElementalDuel.Element.Fire ElementalDuel.Element.Water
      ElementalDuel.Element.Earth ElementalDuel.Element.Air ElementalDuel.Element.Fire
      ElementalDuel.Element.Water ∧
    (ElementalDuel.resolveGame 9 (mkRevealed 1 2 50
        ElementalDuel.Element.Fire ElementalDuel.Element.Water ElementalDuel.Element.Earth
        ElementalDuel.Element.Air ElementalDuel.Element.Fire
        ElementalDuel.Element.Water)).2 = [⟨1, 98⟩, ⟨9, 2⟩] := by
  have h := claim_C5_elemental_resolution 1 2 9 50 (by decide) (by decide) (by decide)
    ElementalDuel.Element.Fire ElementalDuel.Element.Water ElementalDuel.Element.Earth
    ElementalDuel.Element.Air ElementalDuel.Element.Fire ElementalDuel.Element.Water
  exact ⟨h.1,
    ((h.2 ElementalDuel.Element.Earth ElementalDuel.Element.Water).1).trans (by decide)⟩

/-! ### C8 — Finished is terminal -/

/-- C8: once a game's phase is Finished, joinGame, commitMoves,
revealMoves and claimTimeout are all rejected (no state change, so no
further settlement payout or refund instruction is ever issued for the
game), while getGameState still reads the record. -/
theorem claim_C8_finished_terminal (g : ElementalDuel.Game)
    (hg : g.state = ElementalDuel.GameState.Finished) :
    (∀ sender value now, ElementalDuel.joinGame sender value now g = none) ∧
    (∀ sender now mh, ElementalDuel.commitMoves sender now mh g = none) ∧
    (∀ hash owner sender es ss,
      ElementalDuel.revealMoves hash owner sender es ss g = none) ∧
    (∀ owner now, ElementalDuel.claimTimeout owner now g = none) ∧
    ElementalDuel.getGameState g =
      (g.player1, g.player2, g.stake, g.state, g.player1Wins, g.player2Wins) := by
  refine ⟨fun sender value now => ?_, fun sender now mh => ?_,
    fun hash owner sender es ss => ?_, fun owner now => ?_, rfl⟩ <;>
    simp [ElementalDuel.joinGame, ElementalDuel.commitMoves,
      ElementalDuel.revealMoves, ElementalDuel.claimTimeout, hg]

/-! ### C9 — reveals are atomic: all three slots or none -/

/-- Per-player all-or-none property of a revealed-moves triple. -/
def movesAllOrNone (m : Triple ElementalDuel.Move) : Prop :=
  (m.t0.isRevealed = true ∧ m.t1.isRevealed = true ∧ m.t2.isRevealed = true) ∨
  (m.t0.isRevealed = false ∧ m.t1.isRevealed = false ∧ m.t2.isRevealed = false)

/-- Elemental game states reachable from game creation through any
sequence of public operations (with arbitrary callers, values, clocks and
hash functions). -/
inductive Reachable : ElementalDuel.Game → Prop where
  | create (sender value : Nat) (g : ElementalDuel.Game) :
      ElementalDuel.createGame sender value = some g → Reachable g
  | join (sender value now : Nat) (g g' : ElementalDuel.Game) : Reachable g →
      ElementalDuel.joinGame sender value now g = some g' → Reachable g'
  | commit (sender now : Nat) (mh : Triple Nat) (g g' : ElementalDuel.Game) :
      Reachable g → ElementalDuel.commitMoves sender now mh g = some g' → Reachable g'
  | reveal (hash : ElementalDuel.Element → Nat → Nat) (owner sender : Nat)
      (es : Triple ElementalDuel.Element) (ss : Triple Nat)
      (g g' : ElementalDuel.Game) (ps : List Payout) : Reachable g →
      ElementalDuel.revealMoves hash owner sender es ss g = some (g', ps) → Reachable g'
  | timeout (owner now : Nat) (g g' : ElementalDuel.Game) (ps : List Payout) :
      Reachable g → ElementalDuel.claimTimeout owner now g = some (g', ps) → Reachable g'

/-- The round-scoring step never touches the stored moves. -/
lemma resolveStep_moves (g : ElementalDuel.Game) (i : Fin 3) :
    (ElementalDuel.resolveStep g i).player1Moves = g.player1Moves ∧
    (ElementalDuel.resolveStep g i).player2Moves = g.player2Moves := by
  unfold ElementalDuel.resolveStep
  dsimp only
  split_ifs <;> simp

/-- Resolution never touches the stored moves. -/
lemma resolveRounds_moves (owner : Nat) (l : List (Fin 3)) :
    ∀ g : ElementalDuel.Game,
      (ElementalDuel.resolveRounds owner g l).1.player1Moves = g.player1Moves ∧
      (ElementalDuel.resolveRounds owner g l).1.player2Moves = g.player2Moves := by
  induction l with
  | nil =>
    intro g
    unfold ElementalDuel.resolveRounds
    split_ifs <;> simp [ElementalDuel.endGame, ElementalDuel.refundPlayers]
  | cons i rest ih =>
    intro g
    obtain ⟨m1, m2⟩ := resolveStep_moves g i
    unfold ElementalDuel.resolveRounds
    dsimp only
    split_ifs
    · simp [ElementalDuel.endGame, m1, m2]
    · simp [ElementalDuel.endGame, m1, m2]
    · exact ⟨((ih _).1).trans m1, ((ih _).2).trans m2⟩

/-- Resolution never touches the stored moves (entry point form). -/
lemma resolveGame_moves (owner : Nat) (gg : ElementalDuel.Game) :
    (ElementalDuel.resolveGame owner gg).1.player1Moves = gg.player1Moves ∧
    (ElementalDuel.resolveGame owner gg).1.player2Moves = gg.player2Moves :=
  resolveRounds_moves owner [0, 1, 2] gg

/-- A successful join preserves the stored moves. -/
lemma joinGame_moves (sender value now : Nat) (g g' : ElementalDuel.Game)
    (h : ElementalDuel.joinGame sender value now g = some g') :
    g'.player1Moves = g.player1Moves ∧ g'.player2Moves = g.player2Moves := by
  simp only [ElementalDuel.joinGame] at h
  split_ifs at h <;>
    first
      | (obtain rfl := Option.some.inj h; exact ⟨rfl, rfl⟩)
      | exact Option.noConfusion h

/-- A successful commit preserves the stored moves. -/
lemma commitMoves_moves (sender now : Nat) (mh : Triple Nat) (g g' : ElementalDuel.Game)
    (h : ElementalDuel.commitMoves sender now mh g = some g') :
    g'.player1Moves = g.player1Moves ∧ g'.player2Moves = g.player2Moves := by
  simp only [ElementalDuel.commitMoves] at h
  split_ifs at h <;>
    first
      | (obtain rfl := Option.some.inj h; exact ⟨rfl, rfl⟩)
      | exact Option.noConfusion h

/-- A successful timeout claim preserves the stored moves. -/
lemma claimTimeout_moves (owner now : Nat) (g g' : ElementalDuel.Game) (ps : List Payout)
    (h : ElementalDuel.claimTimeout owner now g = some (g', ps)) :
    g'.player1Moves = g.player1Moves ∧ g'.player2Moves = g.player2Moves := by
  simp only [ElementalDuel.claimTimeout, ElementalDuel.endGame,
    ElementalDuel.refundPlayers] at h
  split_ifs at h <;>
    first
      | (have h' := Option.some.inj h
         injection h' with h1 h2
         subst h1
         exact ⟨rfl, rfl⟩)
      | exact Option.noConfusion h

set_option maxHeartbeats 2000000 in
/-- A successful reveal stores the caller's three moves as revealed in one
step and leaves the other player's moves unchanged. -/
lemma revealMoves_shape (hash : ElementalDuel.Element → Nat → Nat) (owner sender : Nat)
    (es : Triple ElementalDuel.Element) (ss : Triple Nat)
    (g g' : ElementalDuel.Game) (ps : List Payout)
    (h : ElementalDuel.revealMoves hash owner sender es ss g = some (g', ps)) :
    (g'.player1Moves = ⟨⟨es.t0, true⟩, ⟨es.t1, true⟩, ⟨es.t2, true⟩⟩ ∧
      g'.player2Moves = g.player2Moves) ∨
    (g'.player2Moves = ⟨⟨es.t0, true⟩, ⟨es.t1, true⟩, ⟨es.t2, true⟩⟩ ∧
      g'.player1Moves = g.player1Moves) := by
  simp only [ElementalDuel.revealMoves] at h
  by_cases hp : sender = g.player1
  · simp only [if_pos hp] at h
    split_ifs at h <;>
      first
        | (have h' := Option.some.inj h
           left
           have hg : g' = (ElementalDuel.resolveGame owner
               { g with player1Moves := ⟨⟨es.t0, true⟩, ⟨es.t1, true⟩, ⟨es.t2, true⟩⟩ }).1 := by
             rw [h']
           rw [hg]
           exact ⟨(resolveGame_moves owner _).1, (resolveGame_moves owner _).2⟩)
        | (have h' := Option.some.inj h
           injection h' with h1 h2
           subst h1
           left
           exact ⟨rfl, rfl⟩)
        | exact Option.noConfusion h
  · simp only [if_neg hp] at h
    split_ifs at h <;>
      first
        | (have h' := Option.some.inj h
           right
           have hg : g' = (ElementalDuel.resolveGame owner
               { g with player2Moves := ⟨⟨es.t0, true⟩, ⟨es.t1, true⟩, ⟨es.t2, true⟩⟩ }).1 := by
             rw [h']
           rw [hg]
           exact ⟨(resolveGame_moves owner _).2, (resolveGame_moves owner _).1⟩)
        | (have h' := Option.some.inj h
           injection h' with h1 h2
           subst h1
           right
           exact ⟨rfl, rfl⟩)
        | exact Option.noConfusion h

/-- C9: every reachable elemental game has, for each player, either all
three move slots revealed or none (revealMoves verifies and stores the
whole triple atomically), so the slot-0 isRevealed flag that claimTimeout
inspects decides whether that player has revealed at all. -/
theorem claim_C9_reveal_atomic (g : ElementalDuel.Game) (h : Reachable g) :
    (movesAllOrNone g.player1Moves ∧ movesAllOrNone g.player2Moves) ∧
    (g.player1Moves.t0.isRevealed = true ↔
      g.player1Moves.t0.isRevealed = true ∧ g.player1Moves.t1.isRevealed = true ∧
      g.player1Moves.t2.isRevealed = true) ∧
    (g.player2Moves.t0.isRevealed = true ↔
      g.player2Moves.t0.isRevealed = true ∧ g.player2Moves.t1.isRevealed = true ∧
      g.player2Moves.t2.isRevealed = true) := by
  have inv : movesAllOrNone g.player1Moves ∧ movesAllOrNone g.player2Moves := by
    induction h with
    | create sender value g hc =>
      unfold ElementalDuel.createGame at hc
      split_ifs at hc <;> cases hc <;> simp [movesAllOrNone]
    | join sender value now g g' hr hj ih =>
      obtain ⟨m1, m2⟩ := joinGame_moves sender value now g g' hj
      rw [m1, m2]
      exact ih
    | commit sender now mh g g' hr hj ih =>
      obtain ⟨m1, m2⟩ := commitMoves_moves sender now mh g g' hj
      rw [m1, m2]
      exact ih
    | reveal hash owner sender es ss g g' ps hr hj ih =>
      rcases revealMoves_shape hash owner sender es ss g g' ps hj with
        ⟨m1, m2⟩ | ⟨m1, m2⟩
      · rw [m1, m2]
        exact ⟨Or.inl ⟨rfl, rfl, rfl⟩, ih.2⟩
      · rw [m1, m2]
        exact ⟨ih.1, Or.inl ⟨rfl, rfl, rfl⟩⟩
    | timeout owner now g g' ps hr hj ih =>
      obtain ⟨m1, m2⟩ := claimTimeout_moves owner now g g' ps hj
      rw [m1, m2]
      exact ih
  refine ⟨inv, ?_, ?_⟩
  · rcases inv.1 with ⟨x, y, z⟩ | ⟨x, y, z⟩ <;> simp [x, y, z]
  · rcases inv.2 with ⟨x, y, z⟩ | ⟨x, y, z⟩ <;> simp [x, y, z]

/-- Witness for C9 at the freshly created game. -/
theorem claim_C9_witness :
    (movesAllOrNone egCreated.player1Moves ∧ movesAllOrNone egCreated.player2Moves) ∧
    (egCreated.player1Moves.t0.isRevealed = true ↔
      egCreated.player1Moves.t0.isRevealed = true ∧
      egCreated.player1Moves.t1.isRevealed = true ∧
      egCreated.player1Moves.t2.isRevealed = true) ∧
    (egCreated.player2Moves.t0.isRevealed = true ↔
      egCreated.player2Moves.t0.isRevealed = true ∧
      egCreated.player2Moves.t1.isRevealed = true ∧
      egCreated.player2Moves.t2.isRevealed = true) :=
  claim_C9_reveal_atomic egCreated (Reachable.create 1 5 egCreated rfl)

/-- Witness for C8 at a concrete finished game. -/
theorem claim_C8_witness :
    ElementalDuel.joinGame 3 5 10 egFinished = none ∧
    ElementalDuel.commitMoves 1 10 ⟨4, 5, 6⟩ egFinished = none ∧
    ElementalDuel.claimTimeout 9 999999 egFinished = none ∧
    ElementalDuel.getGameState egFinished = (1, 2, 5,
      ElementalDuel.GameState.Finished, 0, 0) := by
  refine ⟨?_, ?_, ?_, ?_⟩
  · exact (claim_C8_finished_terminal egFinished rfl).1 3 5 10
  · exact (claim_C8_finished_terminal egFinished rfl).2.1 1 10 ⟨4, 5, 6⟩
  · exact (claim_C8_finished_terminal egFinished rfl).2.2.2.1 9 999999
  · exact ((claim_C8_finished_terminal egFinished rfl).2.2.2.2).trans (by decide)

end ElementDuel
